import Mathlib

/-!
Shallow embedding of the order-management views of the Django backend
(`src/backend/orders/views.py`): order creation with Stripe verification,
cancellation with refund and stock restoration, the admin status update,
Stripe webhook reconciliation, and the dashboard growth metric.

The relational store is modelled as a list of orders plus an association
list from product id to stock counter.  The Stripe API is modelled as a
record of functions (retrieve payment intent, create refund); a call that
raises `stripe.error.StripeError` is an `Except.error` result.  HTTP
responses are a small inductive type carrying the status code and message
actually produced by the handlers.
-/

namespace Orders

/-- A line item of an order: references a product and a quantity
(`OrderItem` of `models.py`, which is outside `src/`; fields follow the
uses in `views.py`: `item.product`, `item.quantity`). -/
structure OrderItem where
  productId : Nat
  quantity : Nat
  deriving DecidableEq, Repr

/-- An order row.  Fields follow the uses in `views.py`:
`status`, `payment_method`, `payment_status`, `payment_intent_id`
(nullable), `total_amount`, `items`, plus the owning `user` and the
primary key `id`. -/
structure Order where
  id : Nat
  user : Nat
  status : String
  payment_method : String
  payment_status : String
  payment_intent_id : Option String
  total_amount : ℚ
  items : List OrderItem
  deriving DecidableEq, Repr

/-- The relational store: order rows, product stock counters
(product id to stock), and the next free primary key. -/
structure Store where
  orders : List Order
  stock : List (Nat × Nat)
  nextId : Nat
  deriving DecidableEq, Repr

/-- A Stripe payment intent as used by the handlers: `id`, `status`
and `amount` (minor currency units). -/
structure PaymentIntent where
  id : String
  status : String
  amount : Int
  deriving DecidableEq, Repr

/-- A Stripe refund object; the handlers only read `refund.status`. -/
structure StripeRefund where
  status : String
  deriving DecidableEq, Repr

/-- The external Stripe gateway: `stripe.PaymentIntent.retrieve` and
`stripe.Refund.create`.  An `Except.error` models a raised
`stripe.error.StripeError` with its message. -/
structure StripeGateway where
  retrievePaymentIntent : String → Except String PaymentIntent
  createRefund : String → Except String StripeRefund

/-- HTTP responses produced by the handlers: an error with status code
and message, a 201 created response carrying the new order id and its
payment status, or a 200 message response. -/
inductive Resp where
  | err (code : Nat) (msg : String)
  | created (id : Nat) (paymentStatus : String)
  | ok (msg : String)
  deriving DecidableEq, Repr

/-- Whether a response is an error response. -/
def Resp.isErr : Resp → Bool
  | .err _ _ => true
  | _ => false

/-- Python truthiness of an optional string (`if not payment_intent_id`
is taken when the value is `None` or the empty string). -/
def optStrTruthy : Option String → Bool
  | none => false
  | some s => s != ""

/-- A validated order-creation request.  Modelled from the spec: the
serializer (`OrderCreateSerializer`, outside `src/`) accepts a payment
method selector, an optional external payment reference, cart contents
and a total; `payment_status` is the serializer-supplied or default
value before the handler touches it. -/
structure CreateRequest where
  user : Nat
  payment_method : String
  payment_intent_id : Option String
  payment_status : String
  status : String
  total_amount : ℚ
  items : List OrderItem
  deriving DecidableEq, Repr

/-- `serializer.save()`: persist a new order row (with its line items)
built from the validated data, with the handler-chosen payment intent
reference and payment status. -/
def saveOrder (s : Store) (r : CreateRequest) (pid : Option String)
    (pstat : String) : Order × Store :=
  let o : Order :=
    { id := s.nextId, user := r.user, status := r.status,
      payment_method := r.payment_method, payment_status := pstat,
      payment_intent_id := pid, total_amount := r.total_amount,
      items := r.items }
  (o, { s with orders := s.orders ++ [o], nextId := s.nextId + 1 })

/-- Result of the creation handler: the HTTP response, the resulting
store, and whether the external gateway was called. -/
structure CreateOutcome where
  resp : Resp
  store : Store
  gatewayCalled : Bool
  deriving Repr

/-- `OrderCreateView.create` (`views.py` lines 34-92).  The Stripe
branch retrieves the payment intent, rejects a non-succeeded status,
computes `stripe_amount = Decimal(payment_intent.amount) / 100` without
ever comparing it to the order total, then forces
`payment_intent_id`/`payment_status = paid` into the validated data.
The mock branch forces `payment_status = paid` with no gateway call.
Any other method persists the validated data unchanged.  The
confirmation email dispatch has no effect on the store and is elided. -/
def order_create (gw : StripeGateway) (s : Store) (r : CreateRequest) :
    CreateOutcome :=
  if r.payment_method = "stripe" then
    if optStrTruthy r.payment_intent_id = false then
      { resp := .err 400 "Payment Intent ID is required for Stripe payments",
        store := s, gatewayCalled := false }
    else
      let pid := r.payment_intent_id.getD ""
      match gw.retrievePaymentIntent pid with
      | .error e =>
          { resp := .err 400 ("Payment verification failed: " ++ e),
            store := s, gatewayCalled := true }
      | .ok intent =>
          if intent.status ≠ "succeeded" then
            { resp := .err 400 "Payment not completed",
              store := s, gatewayCalled := true }
          else
            -- `stripe_amount` is computed here in the source and unused.
            let _stripe_amount : ℚ := (intent.amount : ℚ) / 100
            let (o, s2) := saveOrder s r (some pid) "paid"
            { resp := .created o.id o.payment_status, store := s2,
              gatewayCalled := true }
  else if r.payment_method = "mock" then
    let (o, s2) := saveOrder s r r.payment_intent_id "paid"
    { resp := .created o.id o.payment_status, store := s2,
      gatewayCalled := false }
  else
    let (o, s2) := saveOrder s r r.payment_intent_id r.payment_status
    { resp := .created o.id o.payment_status, store := s2,
      gatewayCalled := false }

/-- `get_object_or_404(Order, id=order_id, user=request.user)`. -/
def findOrder (s : Store) (uid oid : Nat) : Option Order :=
  s.orders.find? (fun o => o.id == oid && o.user == uid)

/-- `order.save()`: write back an order row by primary key. -/
def setOrder (s : Store) (o : Order) : Store :=
  { s with orders := s.orders.map (fun x => if x.id = o.id then o else x) }

/-- `item.product.stock += item.quantity; item.product.save()` for one
item. -/
def bumpStock (ps : List (Nat × Nat)) (pid qty : Nat) : List (Nat × Nat) :=
  ps.map (fun p => if p.1 = pid then (p.1, p.2 + qty) else p)

/-- The stock-restoration loop `for item in order.items.all()`. -/
def restoreStock (ps : List (Nat × Nat)) (items : List OrderItem) :
    List (Nat × Nat) :=
  items.foldl (fun acc it => bumpStock acc it.productId it.quantity) ps

/-- Stock counter of a product, when the product exists. -/
def getStock (ps : List (Nat × Nat)) (pid : Nat) : Option Nat :=
  (ps.find? (fun p => p.1 == pid)).map Prod.snd

/-- Result of the cancellation handler: the HTTP response, the
resulting store, and whether a refund was requested from the gateway. -/
structure CancelOutcome where
  resp : Resp
  store : Store
  refundRequested : Bool
  deriving Repr

/-- Tail of `cancel_order` after the refund logic: restore stock for
every line item, set the order status to cancelled, save. -/
def finishCancel (s : Store) (o : Order) (req : Bool) : CancelOutcome :=
  let s2 := { s with stock := restoreStock s.stock o.items }
  { resp := .ok "Order cancelled successfully",
    store := setOrder s2 { o with status := "cancelled" },
    refundRequested := req }

/-- `cancel_order` (`views.py` lines 137-175).  Orders outside
{pending, processing} are rejected.  A paid Stripe order with a truthy
`payment_intent_id` first gets a refund request; a raised gateway error
or a refund status other than succeeded aborts with no mutation, a
succeeded refund marks the order refunded.  Then stock is restored and
the status set to cancelled. -/
def cancel_order (gw : StripeGateway) (s : Store) (uid oid : Nat) :
    CancelOutcome :=
  match findOrder s uid oid with
  | none => { resp := .err 404 "Not found", store := s, refundRequested := false }
  | some o =>
    if o.status ≠ "pending" ∧ o.status ≠ "processing" then
      { resp := .err 400 "Order cannot be cancelled", store := s,
        refundRequested := false }
    else
      if o.payment_method == "stripe" && optStrTruthy o.payment_intent_id
          && o.payment_status == "paid" then
        match gw.createRefund (o.payment_intent_id.getD "") with
        | .error e =>
            { resp := .err 400 ("Refund failed: " ++ e), store := s,
              refundRequested := true }
        | .ok refund =>
            if refund.status = "succeeded" then
              finishCancel s { o with payment_status := "refunded" } true
            else
              { resp := .err 400 "Refund failed. Please contact support.",
                store := s, refundRequested := true }
      else
        finishCancel s o false

/-- Modelled from the spec: `Order.STATUS_CHOICES` lives in `models.py`,
which is not in `src/`; the spec lists the lifecycle statuses
pending, processing, shipped, delivered, cancelled. -/
def STATUS_CHOICES : List String :=
  ["pending", "processing", "shipped", "delivered", "cancelled"]

/-- `admin_update_order_status` (`views.py` lines 202-219): admins may
set an order status to any member of `STATUS_CHOICES`; unknown values
are rejected.  The serialized order body of the success response is
elided. -/
def admin_update_order_status (s : Store) (isAdmin : Bool) (oid : Nat)
    (newStatus : String) : Resp × Store :=
  if isAdmin = false then (.err 403 "Permission denied", s)
  else
    match s.orders.find? (fun o => o.id == oid) with
    | none => (.err 404 "Not found", s)
    | some o =>
      if newStatus ∈ STATUS_CHOICES then
        (.ok "updated", setOrder s { o with status := newStatus })
      else (.err 400 "Invalid status", s)

/-- Outcome of `stripe.Webhook.construct_event`: a malformed payload
(`ValueError`), a signature mismatch, or a verified event with its type
and the payment intent id of `event.data.object`. -/
inductive WebhookVerify where
  | invalidPayload
  | invalidSignature
  | verified (eventType : String) (intentId : String)
  deriving DecidableEq, Repr

/-- `stripe_webhook` (`views.py` lines 222-267): requires a configured
endpoint secret, rejects unverifiable payloads, and on
`payment_intent.succeeded` / `payment_intent.payment_failed` looks the
order up by `payment_intent_id`, setting its payment status to paid or
failed; a missing order is silently ignored.  Always answers success
once the event verifies.  The confirmation email on the success path
has no store effect and is elided. -/
def stripe_webhook (endpointSecret : Option String) (v : WebhookVerify)
    (s : Store) : Resp × Store :=
  if optStrTruthy endpointSecret = false then
    (.err 400 "Webhook secret not configured", s)
  else
    match v with
    | .invalidPayload => (.err 400 "Invalid payload", s)
    | .invalidSignature => (.err 400 "Invalid signature", s)
    | .verified etype eid =>
      if etype = "payment_intent.succeeded" then
        match s.orders.find? (fun o => o.payment_intent_id == some eid) with
        | some o => (.ok "success", setOrder s { o with payment_status := "paid" })
        | none => (.ok "success", s)
      else if etype = "payment_intent.payment_failed" then
        match s.orders.find? (fun o => o.payment_intent_id == some eid) with
        | some o => (.ok "success", setOrder s { o with payment_status := "failed" })
        | none => (.ok "success", s)
      else (.ok "success", s)

/-- Rounding to two decimal places (`round(growth, 2)`), over ℚ. -/
def round2 (q : ℚ) : ℚ := (round (q * 100) : ℤ) / 100

/-- The growth metric of `admin_dashboard_data` (`views.py` lines
310-314 and 324): zero by default, the relative change when last week
had orders, 100 when only this week has orders, rounded to two
decimals. -/
def dashboard_growth (thisWeek lastWeek : Nat) : ℚ :=
  round2 (if lastWeek ≠ 0 then
            (((thisWeek : ℚ) - (lastWeek : ℚ)) / (lastWeek : ℚ)) * 100
          else if 0 < thisWeek then 100 else 0)

end Orders

namespace Orders

/-! ### Concrete inputs shared by the witnesses -/

/-- A gateway whose intents always report status succeeded (with a fixed
amount of 999999 minor units) and whose refunds succeed. -/
def gwOk : StripeGateway :=
  { retrievePaymentIntent := fun pid =>
      .ok { id := pid, status := "succeeded", amount := 999999 },
    createRefund := fun _ => .ok { status := "succeeded" } }

/-- A gateway whose intents report a non-succeeded status and whose
refunds report failure. -/
def gwBad : StripeGateway :=
  { retrievePaymentIntent := fun pid =>
      .ok { id := pid, status := "requires_payment_method", amount := 1000 },
    createRefund := fun _ => .ok { status := "failed" } }

/-- An empty store with one product in stock. -/
def emptyStore : Store := { orders := [], stock := [(1, 5)], nextId := 1 }

/-- A Stripe order-creation request for a 10.00 total. -/
def reqStripe : CreateRequest :=
  { user := 7, payment_method := "stripe", payment_intent_id := some "pi_1",
    payment_status := "unpaid", status := "pending", total_amount := 10,
    items := [{ productId := 1, quantity := 2 }] }

/-! ### C1: the amount-mismatch check -/

/-- C1: the claim says a Stripe order-creation request whose payment
intent reports an amount different from the order total is rejected with
no order persisted.  The code computes `stripe_amount` from the intent
but never compares it to the order total: with an intent of 999999
minor units (9999.99) against a total of 10.00, the order is persisted
and a 201 response returned, so the claim fails on the code (the source
comment announces the verification that the code does not perform). -/
theorem create_persists_despite_amount_mismatch :
    (999999 : ℚ) / 100 ≠ reqStripe.total_amount ∧
    (order_create gwOk emptyStore reqStripe).resp = .created 1 "paid" ∧
    (order_create gwOk emptyStore reqStripe).store.orders.length = 1 := by
  refine ⟨by norm_num [reqStripe], rfl, rfl⟩

/-! ### C2: non-succeeded intent rejects the creation -/

/-- C2: a Stripe order-creation request whose referenced payment intent
has a status other than succeeded is answered with a 400 error and the
store is unchanged: no order row and no line items are persisted. -/
theorem create_nonsucceeded_intent_rejected (gw : StripeGateway) (s : Store)
    (r : CreateRequest) (intent : PaymentIntent)
    (hm : r.payment_method = "stripe")
    (hp : optStrTruthy r.payment_intent_id = true)
    (hr : gw.retrievePaymentIntent (r.payment_intent_id.getD "") = .ok intent)
    (hs : intent.status ≠ "succeeded") :
    (order_create gw s r).resp = .err 400 "Payment not completed" ∧
    (order_create gw s r).store = s := by
  simp [order_create, hm, hp, hr, hs]

/-- Witness for C2 at a concrete gateway, store and request. -/
theorem create_nonsucceeded_intent_rejected_witness :
    (order_create gwBad emptyStore reqStripe).resp =
      .err 400 "Payment not completed" ∧
    (order_create gwBad emptyStore reqStripe).store = emptyStore :=
  create_nonsucceeded_intent_rejected gwBad emptyStore reqStripe
    { id := "pi_1", status := "requires_payment_method", amount := 1000 }
    rfl (by decide) rfl (by decide)

/-! ### C6: cancellation outside pending/processing -/

/-- C6: cancelling an order whose status is neither pending nor
processing is answered with a 400 error, the store is unchanged, and no
refund is requested from the gateway. -/
theorem cancel_bad_status_rejected (gw : StripeGateway) (s : Store)
    (uid oid : Nat) (o : Order)
    (hfind : findOrder s uid oid = some o)
    (h1 : o.status ≠ "pending") (h2 : o.status ≠ "processing") :
    (cancel_order gw s uid oid).resp = .err 400 "Order cannot be cancelled" ∧
    (cancel_order gw s uid oid).store = s ∧
    (cancel_order gw s uid oid).refundRequested = false := by
  simp [cancel_order, hfind, h1, h2]

/-- A delivered paid Stripe order. -/
def ordShipped : Order :=
  { id := 3, user := 7, status := "shipped", payment_method := "stripe",
    payment_status := "paid", payment_intent_id := some "pi_3",
    total_amount := 20, items := [{ productId := 1, quantity := 1 }] }

/-- A store holding only `ordShipped`. -/
def storeShipped : Store := { orders := [ordShipped], stock := [(1, 5)], nextId := 4 }

/-- Witness for C6 at a shipped order. -/
theorem cancel_bad_status_rejected_witness :
    (cancel_order gwOk storeShipped 7 3).resp =
      .err 400 "Order cannot be cancelled" ∧
    (cancel_order gwOk storeShipped 7 3).store = storeShipped ∧
    (cancel_order gwOk storeShipped 7 3).refundRequested = false :=
  cancel_bad_status_rejected gwOk storeShipped 7 3 ordShipped rfl
    (by decide) (by decide)

/-! ### C9: mock payments -/

/-- C9: an order created with payment method mock is persisted with
payment status paid immediately, and no gateway call is made. -/
theorem create_mock_paid_no_gateway (gw : StripeGateway) (s : Store)
    (r : CreateRequest) (hm : r.payment_method = "mock") :
    (order_create gw s r).gatewayCalled = false ∧
    (order_create gw s r).resp = .created s.nextId "paid" ∧
    (order_create gw s r).store.orders = s.orders ++
      [{ id := s.nextId, user := r.user, status := r.status,
         payment_method := "mock", payment_status := "paid",
         payment_intent_id := r.payment_intent_id,
         total_amount := r.total_amount, items := r.items }] := by
  simp [order_create, hm, saveOrder]

/-- A mock order-creation request. -/
def reqMock : CreateRequest :=
  { user := 7, payment_method := "mock", payment_intent_id := none,
    payment_status := "unpaid", status := "pending", total_amount := 10,
    items := [{ productId := 1, quantity := 2 }] }

/-- Witness for C9 at a concrete request. -/
theorem create_mock_paid_no_gateway_witness :
    (order_create gwOk emptyStore reqMock).gatewayCalled = false ∧
    (order_create gwOk emptyStore reqMock).resp = .created emptyStore.nextId "paid" ∧
    (order_create gwOk emptyStore reqMock).store.orders = emptyStore.orders ++
      [{ id := emptyStore.nextId, user := reqMock.user, status := reqMock.status,
         payment_method := "mock", payment_status := "paid",
         payment_intent_id := reqMock.payment_intent_id,
         total_amount := reqMock.total_amount, items := reqMock.items }] :=
  create_mock_paid_no_gateway gwOk emptyStore reqMock rfl

/-! ### C10: other payment methods -/

/-- C10: an order-creation request whose method is neither stripe nor
mock is persisted as validated (payment status untouched), with no
gateway call, and answered with a 201 carrying the new id and that
payment status. -/
theorem create_other_method_passthrough (gw : StripeGateway) (s : Store)
    (r : CreateRequest) (h1 : r.payment_method ≠ "stripe")
    (h2 : r.payment_method ≠ "mock") :
    (order_create gw s r).gatewayCalled = false ∧
    (order_create gw s r).resp = .created s.nextId r.payment_status ∧
    (order_create gw s r).store.orders = s.orders ++
      [{ id := s.nextId, user := r.user, status := r.status,
         payment_method := r.payment_method, payment_status := r.payment_status,
         payment_intent_id := r.payment_intent_id,
         total_amount := r.total_amount, items := r.items }] := by
  simp [order_create, h1, h2, saveOrder]

/-- A cash-on-delivery order-creation request. -/
def reqCod : CreateRequest :=
  { user := 7, payment_method := "cod", payment_intent_id := none,
    payment_status := "unpaid", status := "pending", total_amount := 10,
    items := [{ productId := 1, quantity := 2 }] }

/-- Witness for C10 at a concrete request. -/
theorem create_other_method_passthrough_witness :
    (order_create gwOk emptyStore reqCod).gatewayCalled = false ∧
    (order_create gwOk emptyStore reqCod).resp =
      .created emptyStore.nextId reqCod.payment_status ∧
    (order_create gwOk emptyStore reqCod).store.orders = emptyStore.orders ++
      [{ id := emptyStore.nextId, user := reqCod.user, status := reqCod.status,
         payment_method := reqCod.payment_method,
         payment_status := reqCod.payment_status,
         payment_intent_id := reqCod.payment_intent_id,
         total_amount := reqCod.total_amount, items := reqCod.items }] :=
  create_other_method_passthrough gwOk emptyStore reqCod
    (by decide) (by decide)

end Orders

namespace Orders

/-! ### C7: dashboard growth metric -/

/-- C7: the dashboard growth metric is 100 when the prior week had no
orders and the current week has some, 0 when both weeks had none, and
otherwise the relative change in percent rounded to two decimals. -/
theorem dashboard_growth_cases :
    (∀ t : Nat, 0 < t → dashboard_growth t 0 = 100) ∧
    dashboard_growth 0 0 = 0 ∧
    (∀ t l : Nat, l ≠ 0 →
      dashboard_growth t l =
        round2 ((((t : ℚ) - (l : ℚ)) / (l : ℚ)) * 100)) := by
  refine ⟨?_, ?_, ?_⟩
  · intro t ht
    simp only [dashboard_growth, ne_eq, not_true_eq_false, if_false, ht, if_true]
    norm_num [round2, round_ofNat]
  · simp only [dashboard_growth, ne_eq, not_true_eq_false, if_false,
      lt_irrefl, if_false]
    norm_num [round2]
  · intro t l hl
    simp [dashboard_growth, hl]

/-- Witness for C7 on concrete weekly counts. -/
theorem dashboard_growth_cases_witness :
    (0 < 3 ∧ dashboard_growth 3 0 = 100) ∧
    ((2 : Nat) ≠ 0 ∧ dashboard_growth 6 2 =
      round2 (((((6 : Nat) : ℚ) - ((2 : Nat) : ℚ)) / ((2 : Nat) : ℚ)) * 100)) :=
  ⟨⟨by decide, dashboard_growth_cases.1 3 (by decide)⟩,
   ⟨by decide, dashboard_growth_cases.2.2 6 2 (by decide)⟩⟩

/-! ### C8: webhook events for unknown intents -/

/-- C8: a verified webhook event of kind payment_intent.succeeded or
payment_intent.payment_failed whose intent id matches no stored order
leaves the store unchanged and is still answered with success. -/
theorem webhook_unknown_intent_noop (sec : Option String) (s : Store)
    (etype eid : String)
    (hsec : optStrTruthy sec = true)
    (hty : etype = "payment_intent.succeeded" ∨
           etype = "payment_intent.payment_failed")
    (hunknown : ∀ o ∈ s.orders, o.payment_intent_id ≠ some eid) :
    stripe_webhook sec (.verified etype eid) s = (.ok "success", s) := by
  have hfind : s.orders.find? (fun o => o.payment_intent_id == some eid) = none := by
    rw [List.find?_eq_none]
    intro o ho
    simpa using hunknown o ho
  rcases hty with h | h <;> simp [stripe_webhook, hsec, h, hfind]

/-- Witness for C8: an unknown intent id against a store with one
order. -/
theorem webhook_unknown_intent_noop_witness :
    stripe_webhook (some "whsec_1") (.verified "payment_intent.succeeded" "pi_unknown")
      storeShipped = (.ok "success", storeShipped) :=
  webhook_unknown_intent_noop (some "whsec_1") storeShipped
    "payment_intent.succeeded" "pi_unknown" (by decide) (Or.inl rfl)
    (by decide)

/-! ### C3: refund failure aborts cancellation -/

/-- C3: cancelling a paid Stripe order with a (truthy) payment intent
id, when the gateway raises an error or the refund does not report
succeeded, is answered with an error and the store is fully unchanged
(order status, payment status and all stock counters). -/
theorem cancel_refund_failure_no_mutation (gw : StripeGateway) (s : Store)
    (uid oid : Nat) (o : Order) (pid : String)
    (hfind : findOrder s uid oid = some o)
    (hm : o.payment_method = "stripe")
    (hpaid : o.payment_status = "paid")
    (hpid : o.payment_intent_id = some pid) (hne : pid ≠ "")
    (hrefund : ∀ rf : StripeRefund,
      gw.createRefund pid = .ok rf → rf.status ≠ "succeeded") :
    (cancel_order gw s uid oid).resp.isErr = true ∧
    (cancel_order gw s uid oid).store = s := by
  simp only [cancel_order, hfind]
  by_cases hstat : o.status ≠ "pending" ∧ o.status ≠ "processing"
  · simp [hstat, Resp.isErr]
  · have hguard : (o.payment_method == "stripe" && optStrTruthy o.payment_intent_id
        && (o.payment_status == "paid")) = true := by
      simp [hm, hpaid, hpid, optStrTruthy, hne]
    rw [if_neg hstat]
    simp only [hguard, if_true, hpid, Option.getD_some]
    cases hcr : gw.createRefund pid with
    | error e => simp [Resp.isErr, hm, hpaid, optStrTruthy, hne]
    | ok rf =>
      have := hrefund rf hcr
      simp [this, Resp.isErr, hm, hpaid, optStrTruthy, hne]

/-- A paid Stripe order still pending. -/
def ordPaid : Order :=
  { id := 1, user := 7, status := "pending", payment_method := "stripe",
    payment_status := "paid", payment_intent_id := some "pi_1",
    total_amount := 10, items := [{ productId := 1, quantity := 2 }] }

/-- A store holding only `ordPaid`. -/
def storePaid : Store := { orders := [ordPaid], stock := [(1, 5)], nextId := 2 }

/-- Witness for C3: a refund reporting failure aborts the
cancellation. -/
theorem cancel_refund_failure_no_mutation_witness :
    (cancel_order gwBad storePaid 7 1).resp.isErr = true ∧
    (cancel_order gwBad storePaid 7 1).store = storePaid :=
  cancel_refund_failure_no_mutation gwBad storePaid 7 1 ordPaid "pi_1"
    rfl rfl rfl rfl (by decide)
    (by intro rf h; cases h; decide)

end Orders

namespace Orders

/-! ### Stock-restoration lemmas for C5 -/

lemma getStock_cons (a : Nat × Nat) (ps : List (Nat × Nat)) (q : Nat) :
    getStock (a :: ps) q = if a.1 = q then some a.2 else getStock ps q := by
  unfold getStock
  rw [List.find?_cons]
  by_cases h : a.1 = q
  · have hb : (a.1 == q) = true := by simpa using h
    rw [hb, if_pos h]
    rfl
  · have hb : (a.1 == q) = false := by simpa using h
    rw [hb, if_neg h]

lemma getStock_bumpStock (ps : List (Nat × Nat)) (pid qty q : Nat) :
    getStock (bumpStock ps pid qty) q =
      if q = pid then (getStock ps q).map (· + qty) else getStock ps q := by
  induction ps with
  | nil => simp [getStock, bumpStock]
  | cons a tl ih =>
    have hbump : bumpStock (a :: tl) pid qty
        = (if a.1 = pid then (a.1, a.2 + qty) else a) :: bumpStock tl pid qty :=
      rfl
    by_cases h1 : a.1 = pid <;> by_cases h2 : a.1 = q
    · have hqp : q = pid := h2 ▸ h1
      rw [hbump, if_pos h1, getStock_cons]
      simp [h2, hqp, getStock_cons]
    · have hqp : ¬q = pid := fun h => h2 (h1.trans h.symm)
      rw [hbump, if_pos h1, getStock_cons]
      simp [h2, hqp, ih, getStock_cons]
    · have hqp : ¬q = pid := fun h => h1 (h2.trans h)
      rw [hbump, if_neg h1, getStock_cons]
      simp [h2, hqp, getStock_cons]
    · rw [hbump, if_neg h1, getStock_cons]
      simp [h2, ih, getStock_cons]

/-- Total quantity over the line items that reference a given product. -/
def sumQty (items : List OrderItem) (pid : Nat) : Nat :=
  ((items.filter (fun it => it.productId == pid)).map OrderItem.quantity).sum

lemma getStock_restoreStock (items : List OrderItem) :
    ∀ (ps : List (Nat × Nat)) (q : Nat),
      getStock (restoreStock ps items) q =
        (getStock ps q).map (· + sumQty items q) := by
  induction items with
  | nil =>
    intro ps q
    simp only [restoreStock, List.foldl_nil, sumQty, List.filter_nil,
      List.map_nil, List.sum_nil]
    cases getStock ps q <;> simp
  | cons it tl ih =>
    intro ps q
    have hstep : restoreStock ps (it :: tl)
        = restoreStock (bumpStock ps it.productId it.quantity) tl := rfl
    rw [hstep, ih, getStock_bumpStock]
    by_cases h : q = it.productId
    · rw [if_pos h]
      have hsum : sumQty (it :: tl) q = it.quantity + sumQty tl q := by
        simp [sumQty, List.filter_cons, h]
      rw [hsum]
      cases getStock ps q <;> simp [Nat.add_assoc]
    · rw [if_neg h]
      have hsum : sumQty (it :: tl) q = sumQty tl q := by
        simp [sumQty, List.filter_cons, Ne.symm h]
      rw [hsum]

lemma sumQty_of_not_mem (items : List OrderItem) (pid : Nat)
    (h : pid ∉ items.map OrderItem.productId) : sumQty items pid = 0 := by
  induction items with
  | nil => rfl
  | cons a tl ih =>
    simp only [List.map_cons, List.mem_cons, not_or] at h
    have hsum : sumQty (a :: tl) pid = sumQty tl pid := by
      simp [sumQty, List.filter_cons, Ne.symm h.1]
    rw [hsum]
    exact ih h.2

lemma sumQty_nodup (items : List OrderItem) (it : OrderItem)
    (hmem : it ∈ items) (hnd : (items.map OrderItem.productId).Nodup) :
    sumQty items it.productId = it.quantity := by
  induction items with
  | nil => cases hmem
  | cons a tl ih =>
    simp only [List.map_cons, List.nodup_cons] at hnd
    rcases List.mem_cons.mp hmem with heq | hmem2
    · have h0 : sumQty tl it.productId = 0 := by
        rw [heq]; exact sumQty_of_not_mem tl _ hnd.1
      have hsum : sumQty (a :: tl) it.productId
          = a.quantity + sumQty tl it.productId := by
        simp [sumQty, List.filter_cons, heq]
      rw [hsum, h0, heq]
      exact Nat.add_zero _
    · have hne : a.productId ≠ it.productId := by
        intro he
        exact hnd.1 (by rw [he]; exact List.mem_map_of_mem _ hmem2)
      have hsum : sumQty (a :: tl) it.productId = sumQty tl it.productId := by
        simp [sumQty, List.filter_cons, hne]
      rw [hsum]
      exact ih hmem2 hnd.2

/-! ### Facts about the shared cancellation tail -/

lemma finishCancel_resp (s : Store) (o2 : Order) (req : Bool) :
    (finishCancel s o2 req).resp = .ok "Order cancelled successfully" := rfl

lemma finishCancel_store_stock (s : Store) (o2 : Order) (req : Bool) :
    (finishCancel s o2 req).store.stock = restoreStock s.stock o2.items := rfl

lemma finishCancel_orders (s : Store) (o2 : Order) (req : Bool) :
    (finishCancel s o2 req).store.orders =
      s.orders.map
        (fun x => if x.id = o2.id then { o2 with status := "cancelled" } else x) :=
  rfl

lemma finishCancel_getStock (s : Store) (o2 : Order) (req : Bool)
    (it : OrderItem) (hit : it ∈ o2.items)
    (hnd : (o2.items.map OrderItem.productId).Nodup) :
    getStock (finishCancel s o2 req).store.stock it.productId =
      (getStock s.stock it.productId).map (· + it.quantity) := by
  rw [finishCancel_store_stock, getStock_restoreStock,
    sumQty_nodup o2.items it hit hnd]

lemma finishCancel_orders_cancelled (s : Store) (o2 : Order) (req : Bool) :
    ∀ x ∈ (finishCancel s o2 req).store.orders,
      x.id = o2.id → x.status = "cancelled" := by
  intro x hx hid
  rw [finishCancel_orders] at hx
  rcases List.mem_map.mp hx with ⟨y, hy, hxy⟩
  by_cases h : y.id = o2.id
  · rw [if_pos h] at hxy
    exact hxy ▸ rfl
  · rw [if_neg h] at hxy
    rw [← hxy] at hid
    exact absurd hid h

lemma finishCancel_mem (s : Store) (o2 : Order) (req : Bool) (y : Order)
    (hy : y ∈ s.orders) (hyid : y.id = o2.id) :
    { o2 with status := "cancelled" } ∈ (finishCancel s o2 req).store.orders := by
  rw [finishCancel_orders]
  exact List.mem_map.mpr ⟨y, hy, by rw [if_pos hyid]⟩

end Orders

namespace Orders

/-! ### C5: successful cancellation restores stock and cancels -/

/-- C5: cancelling a pending or processing order that either needs no
refund (the guard of the refund branch is false) or whose refund
reports succeeded restores the stock of each line item by exactly its
quantity, sets the order status to cancelled, and answers success.  The
item products are assumed distinct, as each line item references its
own product. -/
theorem cancel_valid_restocks_and_cancels (gw : StripeGateway) (s : Store)
    (uid oid : Nat) (o : Order)
    (hfind : findOrder s uid oid = some o)
    (hst : o.status = "pending" ∨ o.status = "processing")
    (hnd : (o.items.map OrderItem.productId).Nodup)
    (hrefund : (o.payment_method == "stripe" && optStrTruthy o.payment_intent_id
        && (o.payment_status == "paid")) = true →
      ∃ rf : StripeRefund,
        gw.createRefund (o.payment_intent_id.getD "") = .ok rf ∧
          rf.status = "succeeded") :
    (cancel_order gw s uid oid).resp = .ok "Order cancelled successfully" ∧
    (∀ it ∈ o.items,
      getStock (cancel_order gw s uid oid).store.stock it.productId =
        (getStock s.stock it.productId).map (· + it.quantity)) ∧
    (∀ x ∈ (cancel_order gw s uid oid).store.orders,
      x.id = oid → x.status = "cancelled") ∧
    (∃ x ∈ (cancel_order gw s uid oid).store.orders,
      x.id = oid ∧ x.status = "cancelled") := by
  have hfind' : s.orders.find? (fun x => x.id == oid && x.user == uid) = some o :=
    hfind
  have hmem : o ∈ s.orders := List.mem_of_find?_eq_some hfind'
  have hoid : o.id = oid := by
    have := List.find?_some hfind'
    simp only [Bool.and_eq_true, beq_iff_eq] at this
    exact this.1
  have hstat : ¬(o.status ≠ "pending" ∧ o.status ≠ "processing") := by
    rcases hst with h | h <;> simp [h]
  by_cases hg : (o.payment_method == "stripe" && optStrTruthy o.payment_intent_id
      && (o.payment_status == "paid")) = true
  · obtain ⟨rf, hcr, hrs⟩ := hrefund hg
    have hcancel : cancel_order gw s uid oid
        = finishCancel s { o with payment_status := "refunded" } true := by
      simp only [cancel_order, hfind]
      rw [if_neg hstat]
      simp [hg, hcr, hrs]
    rw [hcancel]
    refine ⟨finishCancel_resp _ _ _, ?_, ?_, ?_⟩
    · intro it hit
      exact finishCancel_getStock s { o with payment_status := "refunded" } true
        it hit hnd
    · intro x hx hid
      exact finishCancel_orders_cancelled s _ true x hx (by rw [hid, ← hoid])
    · refine ⟨{ { o with payment_status := "refunded" } with status := "cancelled" },
        finishCancel_mem s { o with payment_status := "refunded" } true o hmem rfl,
        ?_, rfl⟩
      exact hoid
  · have hcancel : cancel_order gw s uid oid = finishCancel s o false := by
      simp only [cancel_order, hfind]
      rw [if_neg hstat]
      simp [hg]
    rw [hcancel]
    refine ⟨finishCancel_resp _ _ _, ?_, ?_, ?_⟩
    · intro it hit
      exact finishCancel_getStock s o false it hit hnd
    · intro x hx hid
      exact finishCancel_orders_cancelled s o false x hx (by rw [hid, ← hoid])
    · exact ⟨{ o with status := "cancelled" },
        finishCancel_mem s o false o hmem rfl, hoid, rfl⟩

/-- Witness for C5: cancelling the pending paid order with a succeeding
refund gateway. -/
theorem cancel_valid_restocks_and_cancels_witness :
    (cancel_order gwOk storePaid 7 1).resp = .ok "Order cancelled successfully" ∧
    (∀ it ∈ ordPaid.items,
      getStock (cancel_order gwOk storePaid 7 1).store.stock it.productId =
        (getStock storePaid.stock it.productId).map (· + it.quantity)) ∧
    (∀ x ∈ (cancel_order gwOk storePaid 7 1).store.orders,
      x.id = 1 → x.status = "cancelled") ∧
    (∃ x ∈ (cancel_order gwOk storePaid 7 1).store.orders,
      x.id = 1 ∧ x.status = "cancelled") :=
  cancel_valid_restocks_and_cancels gwOk storePaid 7 1 ordPaid rfl
    (Or.inl rfl) (by decide)
    (fun _ => ⟨{ status := "succeeded" }, rfl, rfl⟩)

end Orders

namespace Orders

/-! ### C4: the paid-implies-intent invariant -/

/-- The invariant on a single order row: a paid Stripe order carries a
non-null payment intent reference. -/
def paidStripeHasIntent (o : Order) : Prop :=
  o.payment_status = "paid" ∧ o.payment_method = "stripe" →
    o.payment_intent_id.isSome = true

instance (o : Order) : Decidable (paidStripeHasIntent o) := by
  unfold paidStripeHasIntent; infer_instance

/-- The invariant over every order row of the store. -/
def storeInv (s : Store) : Prop := ∀ o ∈ s.orders, paidStripeHasIntent o

instance (s : Store) : Decidable (storeInv s) := by
  unfold storeInv; infer_instance

lemma storeInv_setOrder (s : Store) (o : Order) (h : storeInv s)
    (ho : paidStripeHasIntent o) : storeInv (setOrder s o) := by
  intro x hx
  simp only [setOrder, List.mem_map] at hx
  rcases hx with ⟨y, hy, hxy⟩
  by_cases hid : y.id = o.id
  · rw [if_pos hid] at hxy
    exact hxy ▸ ho
  · rw [if_neg hid] at hxy
    exact hxy ▸ h y hy

lemma storeInv_saveOrder (s : Store) (r : CreateRequest) (pid : Option String)
    (pstat : String) (h : storeInv s)
    (ho : paidStripeHasIntent
      { id := s.nextId, user := r.user, status := r.status,
        payment_method := r.payment_method, payment_status := pstat,
        payment_intent_id := pid, total_amount := r.total_amount,
        items := r.items }) :
    storeInv (saveOrder s r pid pstat).2 := by
  intro x hx
  simp only [saveOrder, List.mem_append, List.mem_singleton] at hx
  rcases hx with hx | rfl
  · exact h x hx
  · exact ho

lemma storeInv_finishCancel (s : Store) (o2 : Order) (req : Bool)
    (h : storeInv s)
    (ho : paidStripeHasIntent { o2 with status := "cancelled" }) :
    storeInv (finishCancel s o2 req).store := by
  intro x hx
  rw [finishCancel_orders] at hx
  rcases List.mem_map.mp hx with ⟨y, hy, hxy⟩
  by_cases hid : y.id = o2.id
  · rw [if_pos hid] at hxy
    exact hxy ▸ ho
  · rw [if_neg hid] at hxy
    exact hxy ▸ h y hy

lemma order_create_preserves_inv (gw : StripeGateway) (s : Store)
    (r : CreateRequest) (h : storeInv s) :
    storeInv (order_create gw s r).store := by
  by_cases h1 : r.payment_method = "stripe"
  · by_cases h2 : optStrTruthy r.payment_intent_id = false
    · have hc : (order_create gw s r).store = s := by
        simp [order_create, h1, h2]
      rw [hc]; exact h
    · cases hr : gw.retrievePaymentIntent (r.payment_intent_id.getD "") with
      | error e =>
        have hc : (order_create gw s r).store = s := by
          simp [order_create, h1, h2, hr]
        rw [hc]; exact h
      | ok intent =>
        by_cases h3 : intent.status = "succeeded"
        · have hc : (order_create gw s r).store
              = (saveOrder s r (some (r.payment_intent_id.getD "")) "paid").2 := by
            simp [order_create, saveOrder, h1, h2, hr, h3]
          rw [hc]
          refine storeInv_saveOrder s r _ _ h ?_
          intro _
          rfl
        · have hc : (order_create gw s r).store = s := by
            simp [order_create, h1, h2, hr, h3]
          rw [hc]; exact h
  · by_cases hm : r.payment_method = "mock"
    · have hc : (order_create gw s r).store
          = (saveOrder s r r.payment_intent_id "paid").2 := by
        simp [order_create, saveOrder, h1, hm]
      rw [hc]
      refine storeInv_saveOrder s r _ _ h ?_
      intro hcon
      rw [hm] at hcon
      simp at hcon
    · have hc : (order_create gw s r).store
          = (saveOrder s r r.payment_intent_id r.payment_status).2 := by
        simp [order_create, saveOrder, h1, hm]
      rw [hc]
      refine storeInv_saveOrder s r _ _ h ?_
      intro hcon
      exact absurd hcon.2 h1

lemma cancel_order_preserves_inv (gw : StripeGateway) (s : Store)
    (uid oid : Nat) (h : storeInv s) :
    storeInv (cancel_order gw s uid oid).store := by
  cases hfind : findOrder s uid oid with
  | none =>
    have hc : (cancel_order gw s uid oid).store = s := by
      simp [cancel_order, hfind]
    rw [hc]; exact h
  | some o =>
    have hfind' : s.orders.find? (fun x => x.id == oid && x.user == uid)
        = some o := hfind
    have hmem : o ∈ s.orders := List.mem_of_find?_eq_some hfind'
    by_cases hstat : o.status ≠ "pending" ∧ o.status ≠ "processing"
    · have hc : (cancel_order gw s uid oid).store = s := by
        simp [cancel_order, hfind, hstat]
      rw [hc]; exact h
    · by_cases hg : (o.payment_method == "stripe" && optStrTruthy o.payment_intent_id
          && (o.payment_status == "paid")) = true
      · cases hcr : gw.createRefund (o.payment_intent_id.getD "") with
        | error e =>
          have hc : (cancel_order gw s uid oid).store = s := by
            simp [cancel_order, hfind, hstat, hg, hcr]
          rw [hc]; exact h
        | ok rf =>
          by_cases hrs : rf.status = "succeeded"
          · have hc : cancel_order gw s uid oid
                = finishCancel s { o with payment_status := "refunded" } true := by
              simp only [cancel_order, hfind]
              rw [if_neg hstat]
              simp [hg, hcr, hrs]
            rw [hc]
            refine storeInv_finishCancel s _ true h ?_
            intro hcon
            simp at hcon
          · have hc : (cancel_order gw s uid oid).store = s := by
              simp [cancel_order, hfind, hstat, hg, hcr, hrs]
            rw [hc]; exact h
      · have hc : cancel_order gw s uid oid = finishCancel s o false := by
          simp only [cancel_order, hfind]
          rw [if_neg hstat]
          simp [hg]
        rw [hc]
        refine storeInv_finishCancel s o false h ?_
        intro hcon
        exact h o hmem hcon

lemma admin_update_preserves_inv (s : Store) (adm : Bool) (oid : Nat)
    (ns : String) (h : storeInv s) :
    storeInv (admin_update_order_status s adm oid ns).2 := by
  by_cases hadm : adm = false
  · have hc : (admin_update_order_status s adm oid ns).2 = s := by
      simp [admin_update_order_status, hadm]
    rw [hc]; exact h
  · cases hfind : s.orders.find? (fun o => o.id == oid) with
    | none =>
      have hc : (admin_update_order_status s adm oid ns).2 = s := by
        simp [admin_update_order_status, hadm, hfind]
      rw [hc]; exact h
    | some o =>
      have hmem : o ∈ s.orders := List.mem_of_find?_eq_some hfind
      by_cases hns : ns ∈ STATUS_CHOICES
      · have hc : (admin_update_order_status s adm oid ns).2
            = setOrder s { o with status := ns } := by
          simp [admin_update_order_status, hadm, hfind, hns]
        rw [hc]
        refine storeInv_setOrder s _ h ?_
        intro hcon
        exact h o hmem hcon
      · have hc : (admin_update_order_status s adm oid ns).2 = s := by
          simp [admin_update_order_status, hadm, hfind, hns]
        rw [hc]; exact h

lemma stripe_webhook_preserves_inv (sec : Option String) (v : WebhookVerify)
    (s : Store) (h : storeInv s) :
    storeInv (stripe_webhook sec v s).2 := by
  by_cases hsec : optStrTruthy sec = false
  · have hc : (stripe_webhook sec v s).2 = s := by
      simp [stripe_webhook, hsec]
    rw [hc]; exact h
  · cases v with
    | invalidPayload =>
      have hc : (stripe_webhook sec .invalidPayload s).2 = s := by
        simp [stripe_webhook, hsec]
      rw [hc]; exact h
    | invalidSignature =>
      have hc : (stripe_webhook sec .invalidSignature s).2 = s := by
        simp [stripe_webhook, hsec]
      rw [hc]; exact h
    | verified etype eid =>
      by_cases hty : etype = "payment_intent.succeeded"
      · cases hfind : s.orders.find? (fun o => o.payment_intent_id == some eid) with
        | none =>
          have hc : (stripe_webhook sec (.verified etype eid) s).2 = s := by
            simp [stripe_webhook, hsec, hty, hfind]
          rw [hc]; exact h
        | some o =>
          have hpid : o.payment_intent_id = some eid := by
            have := List.find?_some hfind
            simpa using this
          have hc : (stripe_webhook sec (.verified etype eid) s).2
              = setOrder s { o with payment_status := "paid" } := by
            simp [stripe_webhook, hsec, hty, hfind]
          rw [hc]
          refine storeInv_setOrder s _ h ?_
          intro _
          rw [show ({ o with payment_status := "paid" } : Order).payment_intent_id
              = some eid from hpid]
          rfl
      · by_cases hty2 : etype = "payment_intent.payment_failed"
        · cases hfind : s.orders.find? (fun o => o.payment_intent_id == some eid) with
          | none =>
            have hc : (stripe_webhook sec (.verified etype eid) s).2 = s := by
              simp [stripe_webhook, hsec, hty, hty2, hfind]
            rw [hc]; exact h
          | some o =>
            have hc : (stripe_webhook sec (.verified etype eid) s).2
                = setOrder s { o with payment_status := "failed" } := by
              simp [stripe_webhook, hsec, hty, hty2, hfind]
            rw [hc]
            refine storeInv_setOrder s _ h ?_
            intro hcon
            simp at hcon
        · have hc : (stripe_webhook sec (.verified etype eid) s).2 = s := by
            simp [stripe_webhook, hsec, hty, hty2]
          rw [hc]; exact h

/-- C4: order creation, cancellation, the admin status update and
webhook reconciliation each preserve the invariant that every order
with payment status paid and payment method stripe carries a non-null
payment intent id. -/
theorem operations_preserve_paid_stripe_invariant :
    (∀ (gw : StripeGateway) (s : Store) (r : CreateRequest),
      storeInv s → storeInv (order_create gw s r).store) ∧
    (∀ (gw : StripeGateway) (s : Store) (uid oid : Nat),
      storeInv s → storeInv (cancel_order gw s uid oid).store) ∧
    (∀ (s : Store) (adm : Bool) (oid : Nat) (ns : String),
      storeInv s → storeInv (admin_update_order_status s adm oid ns).2) ∧
    (∀ (sec : Option String) (v : WebhookVerify) (s : Store),
      storeInv s → storeInv (stripe_webhook sec v s).2) :=
  ⟨order_create_preserves_inv, cancel_order_preserves_inv,
    admin_update_preserves_inv, stripe_webhook_preserves_inv⟩

/-- Witness for C4: the invariant holds of a concrete store and is
preserved by each of the four operations on it. -/
theorem operations_preserve_paid_stripe_invariant_witness :
    storeInv storePaid ∧
    storeInv (order_create gwOk storePaid reqMock).store ∧
    storeInv (cancel_order gwOk storePaid 7 1).store ∧
    storeInv (admin_update_order_status storePaid true 1 "shipped").2 ∧
    storeInv (stripe_webhook (some "whsec_1")
      (.verified "payment_intent.succeeded" "pi_1") storePaid).2 :=
  ⟨by decide,
    operations_preserve_paid_stripe_invariant.1 gwOk storePaid reqMock (by decide),
    operations_preserve_paid_stripe_invariant.2.1 gwOk storePaid 7 1 (by decide),
    operations_preserve_paid_stripe_invariant.2.2.1 storePaid true 1 "shipped"
      (by decide),
    operations_preserve_paid_stripe_invariant.2.2.2 (some "whsec_1")
      (.verified "payment_intent.succeeded" "pi_1") storePaid (by decide)⟩

end Orders
